import Mathlib

/-!
Dashboard resource-detail layer: PersistentVolume and ReplicationController

A shallow embedding of

* `src/app/backend/resource/persistentvolume/detail.go`
* `src/app/backend/resource/replicationcontroller/detail.go`

Every Go function that talks to the cluster is embedded as a function from the
client state before the call to an `Outcome`: the returned Go values, the
ordered trace of log lines and client calls, and the client state afterwards.
-/

namespace Dashboard

/-! ## Go base types -/

/-- Go `int32`: the integers of the signed 32-bit range. The code under study
only copies such values, it never does arithmetic on them. -/
abbrev GoInt32 : Type := { n : Int // -2147483648 ≤ n ∧ n ≤ 2147483647 }

/-- Go `map[string]string`. The code only copies such maps, never reads a key,
so an association list stands for the map value. -/
abbrev StringMap : Type := List (String × String)

/-! ## The Kubernetes API objects (`k8s.io/api/core/v1`)

The fields the dashboard code reads or writes are spelled out. Parts it never
looks into are kept whole as a field of a type parameter: `M` for
`metaV1.ObjectMeta`, `T` for `v1.PodTemplateSpec`, `S` for
`v1.ReplicationControllerStatus`, `V` for `v1.PersistentVolumeSource` and `R`
for the remaining fields of `v1.PersistentVolumeSpec`. -/

namespace v1

/-- The struct `metaV1.TypeMeta`. -/
structure TypeMeta where
  Kind : String
  APIVersion : String
deriving DecidableEq, Repr

/-- The struct `v1.ReplicationControllerSpec`; `Replicas` is a `*int32`,
`Template` a `*PodTemplateSpec`. -/
structure ReplicationControllerSpec (T : Type) where
  Replicas : Option GoInt32
  MinReadySeconds : GoInt32
  Selector : StringMap
  Template : Option T
deriving DecidableEq, Repr

/-- The struct `v1.ReplicationController`. -/
structure ReplicationController (M T S : Type) where
  TypeMeta : TypeMeta
  ObjectMeta : M
  Spec : ReplicationControllerSpec T
  Status : S
deriving DecidableEq, Repr

/-- The struct `v1.PersistentVolumeSpec`: the inlined `PersistentVolumeSource`
and, in `Other`, all its remaining fields. -/
structure PersistentVolumeSpec (V R : Type) where
  PersistentVolumeSource : V
  Other : R
deriving DecidableEq, Repr

/-- The struct `v1.PersistentVolumeStatus`. -/
structure PersistentVolumeStatus where
  Phase : String
  Message : String
  Reason : String
deriving DecidableEq, Repr

/-- The struct `v1.PersistentVolume`. -/
structure PersistentVolume (M V R : Type) where
  TypeMeta : TypeMeta
  ObjectMeta : M
  Spec : PersistentVolumeSpec V R
  Status : PersistentVolumeStatus
deriving DecidableEq, Repr

end v1

/-! ## Effects: the cluster client, the trace and the outcome of a call -/

/-- The part of `k8s.io/client-go/kubernetes.Interface` that the two files use,
as transitions on a client state `σ`. A Go result `(*T, error)` of the typed
client is an `Except Err T`: the object on success, the error otherwise (the
code never reads the object next to a non-nil error). The `metaV1.GetOptions`
argument is always the empty struct and is left out.

* `PersistentVolumesGet s tenant name` is
  `CoreV1().PersistentVolumesWithMultiTenancy(tenant).Get(name, GetOptions{})`;
* `ReplicationControllersGet s ns tenant name` is
  `CoreV1().ReplicationControllersWithMultiTenancy(ns, tenant).Get(name, GetOptions{})`;
* `ReplicationControllersUpdate s ns tenant obj` is
  `CoreV1().ReplicationControllersWithMultiTenancy(ns, tenant).Update(obj)`. -/
structure Client (σ Err PV RC : Type) where
  PersistentVolumesGet : σ → String → String → Except Err PV × σ
  ReplicationControllersGet : σ → String → String → String → Except Err RC × σ
  ReplicationControllersUpdate : σ → String → String → RC → Except Err RC × σ

/-- A request that reaches the cluster. -/
inductive Call (RC : Type) where
  | getPersistentVolume (tenant name : String)
  | getReplicationController (ns tenant name : String)
  | updateReplicationController (ns tenant : String) (obj : RC)
  | fetchPodInfo (rc : RC) (tenant ns : String)
deriving DecidableEq, Repr

/-- One observable step of a dashboard function: a `log.Printf` line (the
formatted message, without the logger's time prefix) or a cluster request. -/
inductive Event (RC : Type) where
  | log (msg : String)
  | call (c : Call RC)
deriving DecidableEq, Repr

/-- What a dashboard function leaves behind: the Go return value, the ordered
trace of its steps and the client state after its last request. -/
structure Outcome (σ RC α : Type) where
  value : α
  trace : List (Event RC)
  state : σ

/-- How a Go call ends: it returns a value, or it panics (a nil pointer is
dereferenced) and returns nothing. -/
inductive GoResult (α : Type) where
  | returned (v : α)
  | panicked
deriving DecidableEq, Repr

/-- Is the request a get-by-key of a primary object? -/
def Call.isGet {RC : Type} : Call RC → Bool
  | Call.getPersistentVolume _ _ => true
  | Call.getReplicationController _ _ _ => true
  | _ => false

/-- Is the request an update-by-value? -/
def Call.isUpdate {RC : Type} : Call RC → Bool
  | Call.updateReplicationController _ _ _ => true
  | _ => false

/-- The cluster requests of a trace, in order, the log lines dropped. -/
def clientCalls {RC : Type} : List (Event RC) → List (Call RC)
  | [] => []
  | Event.log _ :: rest => clientCalls rest
  | Event.call c :: rest => c :: clientCalls rest

/-! ## Package `persistentvolume` -/

namespace persistentvolume

/-- The struct `PersistentVolumeDetail`: the embedded list item
`PersistentVolume` (declared in the package's list file, here the type
`PVItem`) and the two detail-only fields. -/
structure PersistentVolumeDetail (PVItem V : Type) where
  PersistentVolume : PVItem
  Message : String
  PersistentVolumeSource : V
deriving DecidableEq, Repr

variable {σ Err M V R PVItem RC : Type}

/-- The function `getPersistentVolumeDetail` (detail.go, lines 59-65). The list
projection `toPersistentVolume` lives in the package's list file and is taken
as a parameter. -/
def getPersistentVolumeDetail (toPersistentVolume : v1.PersistentVolume M V R → PVItem)
    (pv : v1.PersistentVolume M V R) : PersistentVolumeDetail PVItem V :=
  { PersistentVolume := toPersistentVolume pv
    Message := pv.Status.Message
    PersistentVolumeSource := pv.Spec.PersistentVolumeSource }

/-- The function `GetPersistentVolumeDetail` (detail.go, lines 36-45). The Go
result `(*PersistentVolumeDetail, error)` is the pair of two options. -/
def GetPersistentVolumeDetail (toPersistentVolume : v1.PersistentVolume M V R → PVItem)
    (client : Client σ Err (v1.PersistentVolume M V R) RC) (s : σ) (name : String) :
    Outcome σ RC (Option (PersistentVolumeDetail PVItem V) × Option Err) :=
  let tr : List (Event RC) :=
    [Event.log ("Getting details of " ++ name ++ " persistent volume"),
     Event.call (Call.getPersistentVolume "" name)]
  match client.PersistentVolumesGet s "" name with
  | (Except.error err, s1) => { value := (none, some err), trace := tr, state := s1 }
  | (Except.ok rawPersistentVolume, s1) =>
      { value := (some (getPersistentVolumeDetail toPersistentVolume rawPersistentVolume), none)
        trace := tr, state := s1 }

/-- The function `GetPersistentVolumeDetailWithMultiTenancy` (detail.go, lines
47-57). -/
def GetPersistentVolumeDetailWithMultiTenancy
    (toPersistentVolume : v1.PersistentVolume M V R → PVItem)
    (client : Client σ Err (v1.PersistentVolume M V R) RC) (s : σ) (tenant name : String) :
    Outcome σ RC (Option (PersistentVolumeDetail PVItem V) × Option Err) :=
  let tr : List (Event RC) :=
    [Event.log ("Getting details of " ++ name ++ " persistent volume"),
     Event.call (Call.getPersistentVolume tenant name)]
  match client.PersistentVolumesGet s tenant name with
  | (Except.error err, s1) => { value := (none, some err), trace := tr, state := s1 }
  | (Except.ok rawPersistentVolume, s1) =>
      { value := (some (getPersistentVolumeDetail toPersistentVolume rawPersistentVolume), none)
        trace := tr, state := s1 }

end persistentvolume

/-! ## Package `replicationcontroller` -/

namespace replicationcontroller

/-- The struct `ReplicationControllerDetail` (detail.go, lines 29-37): the
embedded list item `ReplicationController` (declared in the package's list
file, here the type `RCItem`), the label selector and the non-critical
errors. -/
structure ReplicationControllerDetail (RCItem Err : Type) where
  ReplicationController : RCItem
  LabelSelector : StringMap
  Errors : List Err
deriving DecidableEq, Repr

/-- The struct `ReplicationControllerSpec` (detail.go, lines 40-43). -/
structure ReplicationControllerSpec where
  Replicas : GoInt32
deriving DecidableEq, Repr

/-- Functions of the repository that `detail.go` calls and that live in other
files; they are parameters of the embedding.

* `HandleError` is `errors.HandleError`: from a Go `error` (possibly nil) to
  the non-critical errors and the critical error (possibly nil).
* `ToReplicationController` is the list projection of the package's list file;
  its second argument is the `*common.PodInfo` pointer, possibly nil. Nothing
  in detail.go guards the pointers it is given, so the call may panic on them
  instead of returning a list item.
* `podInfoFetch s rc tenant ns` is the answer of the auxiliary data provider
  on client state `s`: the Go pair `(*common.PodInfo, error)` and the client
  state after the fetch. -/
structure Deps (σ Err RC PodInfo RCItem : Type) where
  HandleError : Option Err → List Err × Option Err
  ToReplicationController : RC → Option PodInfo → GoResult RCItem
  podInfoFetch : σ → RC → String → String → (Option PodInfo × Option Err) × σ

variable {σ Err M T S PV PodInfo RCItem : Type}

/-- Modelled from the spec: `getReplicationControllerPodInfoWithMultiTenancy`,
a function of this package that is not in detail.go. The spec (§6, "Auxiliary
Data Provider") gives it as `fetch(client, object, tenant, namespace) ->
(AuxData, error)` and §4.1 calls it "a second fetch", one of "the two read
calls": a single read request against the cluster, answered by
`Deps.podInfoFetch`. -/
def getReplicationControllerPodInfoWithMultiTenancy
    (deps : Deps σ Err (v1.ReplicationController M T S) PodInfo RCItem) (s : σ)
    (replicationController : v1.ReplicationController M T S) (tenant ns : String) :
    Outcome σ (v1.ReplicationController M T S) (Option PodInfo × Option Err) :=
  { value := (deps.podInfoFetch s replicationController tenant ns).1
    trace := [Event.call (Call.fetchPodInfo replicationController tenant ns)]
    state := (deps.podInfoFetch s replicationController tenant ns).2 }

/-- Modelled from the spec: `getReplicationControllerPodInfo`, a function of
this package that is not in detail.go. The spec knows one auxiliary data
provider, `fetch(client, object, tenant, namespace)`, whose tenant "defaults to
an 'all tenants' sentinel when omitted" (§4.1): the variant without a tenant is
the provider at the empty tenant. -/
def getReplicationControllerPodInfo
    (deps : Deps σ Err (v1.ReplicationController M T S) PodInfo RCItem) (s : σ)
    (replicationController : v1.ReplicationController M T S) (ns : String) :
    Outcome σ (v1.ReplicationController M T S) (Option PodInfo × Option Err) :=
  getReplicationControllerPodInfoWithMultiTenancy deps s replicationController "" ns

/-- The function `toReplicationControllerDetail` (detail.go, lines 131-137).
The first field of the struct literal is the call of `ToReplicationController`
on the pointers as they came, `podInfo` possibly nil; when that call panics so
does this function. -/
def toReplicationControllerDetail
    (deps : Deps σ Err (v1.ReplicationController M T S) PodInfo RCItem)
    (replicationController : v1.ReplicationController M T S) (podInfo : Option PodInfo)
    (nonCriticalErrors : List Err) : GoResult (ReplicationControllerDetail RCItem Err) :=
  match deps.ToReplicationController replicationController podInfo with
  | GoResult.panicked => GoResult.panicked
  | GoResult.returned item =>
      GoResult.returned
        { ReplicationController := item
          LabelSelector := replicationController.Spec.Selector
          Errors := nonCriticalErrors }

/-- The function `GetReplicationControllerDetail` (detail.go, lines 47-63). The
Go result `(*ReplicationControllerDetail, error)` is the pair of two options;
the call returns such a pair or panics inside `toReplicationControllerDetail`
(line 61). -/
def GetReplicationControllerDetail
    (deps : Deps σ Err (v1.ReplicationController M T S) PodInfo RCItem)
    (client : Client σ Err PV (v1.ReplicationController M T S)) (s : σ) (ns name : String) :
    Outcome σ (v1.ReplicationController M T S)
      (GoResult (Option (ReplicationControllerDetail RCItem Err) × Option Err)) :=
  let tr : List (Event (v1.ReplicationController M T S)) :=
    [Event.log ("Getting details of " ++ name ++ " replication controller in " ++ ns
        ++ " namespace"),
     Event.call (Call.getReplicationController ns "" name)]
  match client.ReplicationControllersGet s ns "" name with
  | (Except.error err, s1) =>
      { value := GoResult.returned (none, some err), trace := tr, state := s1 }
  | (Except.ok replicationController, s1) =>
      let aux := getReplicationControllerPodInfo deps s1 replicationController ns
      match deps.HandleError aux.value.2 with
      | (_, some criticalError) =>
          { value := GoResult.returned (none, some criticalError)
            trace := tr ++ aux.trace, state := aux.state }
      | (nonCriticalErrors, none) =>
          { value :=
              match toReplicationControllerDetail deps replicationController aux.value.1
                nonCriticalErrors with
              | GoResult.panicked => GoResult.panicked
              | GoResult.returned replicationControllerDetail =>
                  GoResult.returned (some replicationControllerDetail, none)
            trace := tr ++ aux.trace, state := aux.state }

/-- The function `GetReplicationControllerDetailWithMultiTenancy` (detail.go,
lines 67-83). -/
def GetReplicationControllerDetailWithMultiTenancy
    (deps : Deps σ Err (v1.ReplicationController M T S) PodInfo RCItem)
    (client : Client σ Err PV (v1.ReplicationController M T S)) (s : σ)
    (tenant ns name : String) :
    Outcome σ (v1.ReplicationController M T S)
      (GoResult (Option (ReplicationControllerDetail RCItem Err) × Option Err)) :=
  let tr : List (Event (v1.ReplicationController M T S)) :=
    [Event.log ("Getting details of " ++ name ++ " replication controller in " ++ ns
        ++ " namespace for " ++ tenant),
     Event.call (Call.getReplicationController ns tenant name)]
  match client.ReplicationControllersGet s ns tenant name with
  | (Except.error err, s1) =>
      { value := GoResult.returned (none, some err), trace := tr, state := s1 }
  | (Except.ok replicationController, s1) =>
      let aux := getReplicationControllerPodInfoWithMultiTenancy deps s1 replicationController
        tenant ns
      match deps.HandleError aux.value.2 with
      | (_, some criticalError) =>
          { value := GoResult.returned (none, some criticalError)
            trace := tr ++ aux.trace, state := aux.state }
      | (nonCriticalErrors, none) =>
          { value :=
              match toReplicationControllerDetail deps replicationController aux.value.1
                nonCriticalErrors with
              | GoResult.panicked => GoResult.panicked
              | GoResult.returned replicationControllerDetail =>
                  GoResult.returned (some replicationControllerDetail, none)
            trace := tr ++ aux.trace, state := aux.state }

/-- The assignment `replicationController.Spec.Replicas = &spec.Replicas`
(detail.go, lines 95 and 118) on the fetched object. -/
def setReplicas (replicationController : v1.ReplicationController M T S)
    (spec : ReplicationControllerSpec) : v1.ReplicationController M T S :=
  { replicationController with
    Spec := { replicationController.Spec with Replicas := some spec.Replicas } }

/-- The function `UpdateReplicasCount` (detail.go, lines 86-106). The argument
`spec` is the struct behind the non-nil pointer the function dereferences in
its first statement; the Go result `error` is an option. -/
def UpdateReplicasCount (client : Client σ Err PV (v1.ReplicationController M T S)) (s : σ)
    (ns name : String) (spec : ReplicationControllerSpec) :
    Outcome σ (v1.ReplicationController M T S) (Option Err) :=
  let l1 : Event (v1.ReplicationController M T S) :=
    Event.log ("Updating replicas count to " ++ toString spec.Replicas.val ++ " for " ++ name
      ++ " replication controller from " ++ ns ++ " namespace")
  let g : Event (v1.ReplicationController M T S) :=
    Event.call (Call.getReplicationController ns "" name)
  match client.ReplicationControllersGet s ns "" name with
  | (Except.error err, s1) => { value := some err, trace := [l1, g], state := s1 }
  | (Except.ok replicationController, s1) =>
      let updated := setReplicas replicationController spec
      let u : Event (v1.ReplicationController M T S) :=
        Event.call (Call.updateReplicationController ns "" updated)
      match client.ReplicationControllersUpdate s1 ns "" updated with
      | (Except.error err, s2) => { value := some err, trace := [l1, g, u], state := s2 }
      | (Except.ok _, s2) =>
          { value := none
            trace := [l1, g, u,
              Event.log ("Successfully updated replicas count to "
                ++ toString spec.Replicas.val ++ " for " ++ name
                ++ " replication controller from " ++ ns ++ " namespace")]
            state := s2 }

/-- The function `UpdateReplicasCountWithMultiTenancy` (detail.go, lines
109-129). -/
def UpdateReplicasCountWithMultiTenancy
    (client : Client σ Err PV (v1.ReplicationController M T S)) (s : σ)
    (tenant ns name : String) (spec : ReplicationControllerSpec) :
    Outcome σ (v1.ReplicationController M T S) (Option Err) :=
  let l1 : Event (v1.ReplicationController M T S) :=
    Event.log ("Updating replicas count to " ++ toString spec.Replicas.val ++ " for " ++ name
      ++ " replication controller from " ++ ns ++ " namespace for " ++ tenant)
  let g : Event (v1.ReplicationController M T S) :=
    Event.call (Call.getReplicationController ns tenant name)
  match client.ReplicationControllersGet s ns tenant name with
  | (Except.error err, s1) => { value := some err, trace := [l1, g], state := s1 }
  | (Except.ok replicationController, s1) =>
      let updated := setReplicas replicationController spec
      let u : Event (v1.ReplicationController M T S) :=
        Event.call (Call.updateReplicationController ns tenant updated)
      match client.ReplicationControllersUpdate s1 ns tenant updated with
      | (Except.error err, s2) => { value := some err, trace := [l1, g, u], state := s2 }
      | (Except.ok _, s2) =>
          { value := none
            trace := [l1, g, u,
              Event.log ("Successfully updated replicas count to "
                ++ toString spec.Replicas.val ++ " for " ++ name
                ++ " replication controller from " ++ ns ++ " namespace for " ++ tenant)]
            state := s2 }

end replicationcontroller

/-! ## A cluster store

The client of the two files is an interface; the statements about what is
stored after an update are made over the following store, in which a
successful Update replaces the object stored under tenant, namespace and
name. -/

/-- The objects of a cluster, by key: persistent volumes under tenant and
name, replication controllers under tenant, namespace and name. -/
structure ClusterStore (PV RC : Type) where
  persistentVolumes : String → String → Option PV
  replicationControllers : String → String → String → Option RC

/-- What a store needs to know beyond its contents: the error of a missing
object, the name an object's metadata carries, and the admission check of a
write (`none` admits the object, `some e` rejects it with `e`). -/
structure StoreRules (Err M T S : Type) where
  notFound : Err
  nameOf : M → String
  validate : v1.ReplicationController M T S → Option Err

/-- The store with `obj` as the replication controller under tenant, namespace
and name, every other entry as before. -/
def ClusterStore.putReplicationController {PV RC : Type} (s : ClusterStore PV RC)
    (tenant ns name : String) (obj : RC) : ClusterStore PV RC :=
  { s with
    replicationControllers := fun t n k =>
      if t = tenant ∧ n = ns ∧ k = name then some obj else s.replicationControllers t n k }

/-- The client of a cluster store. A Get answers with the object under the key
or the not-found error and leaves the store alone. An Update of an admitted
object replaces the object stored under the tenant, the namespace and the
object's own name, and fails when there is none; a failed Update leaves the
store alone. -/
def storeClient {Err M T S PV : Type} (rules : StoreRules Err M T S) :
    Client (ClusterStore PV (v1.ReplicationController M T S)) Err PV
      (v1.ReplicationController M T S) where
  PersistentVolumesGet := fun s tenant name =>
    match s.persistentVolumes tenant name with
    | some pv => (Except.ok pv, s)
    | none => (Except.error rules.notFound, s)
  ReplicationControllersGet := fun s ns tenant name =>
    match s.replicationControllers tenant ns name with
    | some rc => (Except.ok rc, s)
    | none => (Except.error rules.notFound, s)
  ReplicationControllersUpdate := fun s ns tenant obj =>
    match rules.validate obj with
    | some e => (Except.error e, s)
    | none =>
        match s.replicationControllers tenant ns (rules.nameOf obj.ObjectMeta) with
        | none => (Except.error rules.notFound, s)
        | some _ =>
            (Except.ok obj,
             s.putReplicationController tenant ns (rules.nameOf obj.ObjectMeta) obj)

/-! ## Concrete data for the worked examples -/

namespace Example

/-- A replication controller with string metadata, no template and a replica
count as status. -/
abbrev RC : Type := v1.ReplicationController String Unit Int

/-- A persistent volume with string metadata and a string volume source. -/
abbrev PV : Type := v1.PersistentVolume String String Unit

/-- The replication controller `rc-1` with the given desired replicas. -/
def rc1 (replicas : GoInt32) : RC :=
  { TypeMeta := { Kind := "ReplicationController", APIVersion := "v1" }
    ObjectMeta := "rc-1"
    Spec := { Replicas := some replicas, MinReadySeconds := ⟨7, by decide⟩
              Selector := [("app", "web")], Template := some () }
    Status := 2 }

/-- The persistent volume `pv-1`. -/
def pv1 : PV :=
  { TypeMeta := { Kind := "PersistentVolume", APIVersion := "v1" }
    ObjectMeta := "pv-1"
    Spec := { PersistentVolumeSource := "nfs:/export", Other := () }
    Status := { Phase := "Bound", Message := "ok", Reason := "" } }

/-- A store holding `pv-1` and, in each of the namespaces `default`, `secure`
and `slow`, a controller `rc-1` with two replicas, all under the empty
tenant. -/
def store : ClusterStore PV RC where
  persistentVolumes := fun t k => if t = "" ∧ k = "pv-1" then some pv1 else none
  replicationControllers := fun t n k =>
    if t = "" ∧ k = "rc-1" ∧ (n = "default" ∨ n = "secure" ∨ n = "slow") then
      some (rc1 ⟨2, by decide⟩)
    else none

/-- Store rules: errors are strings, the metadata is the name, every write is
admitted. -/
def rules : StoreRules String String Unit Int where
  notFound := "not found"
  nameOf := fun m => m
  validate := fun _ => none

/-- The store's client. -/
def client : Client (ClusterStore PV RC) String PV RC := storeClient rules

/-- Dependencies for the examples: an error is critical exactly when it is
"forbidden"; the list item is the controller's name and the pod count read
through the pod-info pointer, so that the projection panics on a nil pointer;
the auxiliary fetch gives three pods in namespace `default`, fails with
"forbidden" in namespace `secure` and with "timeout" elsewhere, a failed fetch
giving the nil pointer. -/
def deps : replicationcontroller.Deps (ClusterStore PV RC) String RC Nat (String × Nat) where
  HandleError := fun e =>
    match e with
    | none => ([], none)
    | some m => if m = "forbidden" then ([], some m) else ([m], none)
  ToReplicationController := fun rc podInfo =>
    match podInfo with
    | none => GoResult.panicked
    | some pods => GoResult.returned (rc.ObjectMeta, pods)
  podInfoFetch := fun s _ _ ns =>
    if ns = "default" then ((some 3, none), s)
    else if ns = "secure" then ((none, some "forbidden"), s)
    else ((none, some "timeout"), s)

/-- The update spec asking for five replicas. -/
def five : replicationcontroller.ReplicationControllerSpec := { Replicas := ⟨5, by decide⟩ }

/-- The update spec asking for minus three replicas. -/
def minusThree : replicationcontroller.ReplicationControllerSpec :=
  { Replicas := ⟨-3, by decide⟩ }

end Example

/-! ## Predicates of the statements -/

open replicationcontroller persistentvolume

/-- The object `obj` is `rc` with `Spec.Replicas` pointing at the replica count
of `spec` and every other field as in `rc`, field by field. -/
def OnlyReplicasSet {M T S : Type} (rc : v1.ReplicationController M T S)
    (spec : ReplicationControllerSpec) (obj : v1.ReplicationController M T S) : Prop :=
  obj.Spec.Replicas = some spec.Replicas ∧
  obj.Spec.MinReadySeconds = rc.Spec.MinReadySeconds ∧
  obj.Spec.Selector = rc.Spec.Selector ∧
  obj.Spec.Template = rc.Spec.Template ∧
  obj.TypeMeta = rc.TypeMeta ∧
  obj.ObjectMeta = rc.ObjectMeta ∧
  obj.Status = rc.Status

/-- A client whose Gets leave its state as it was. -/
def GetsLeaveState {σ Err PV RC : Type} (client : Client σ Err PV RC) : Prop :=
  (∀ s tenant name, (client.PersistentVolumesGet s tenant name).2 = s) ∧
  (∀ s ns tenant name, (client.ReplicationControllersGet s ns tenant name).2 = s)

/-- An auxiliary data provider whose fetch leaves the client state as it was. -/
def FetchLeavesState {σ Err RC PodInfo RCItem : Type}
    (deps : Deps σ Err RC PodInfo RCItem) : Prop :=
  ∀ s rc tenant ns, (deps.podInfoFetch s rc tenant ns).2 = s

/-- The requests `calls` hold the one get-by-key `get` and no Update. -/
def OneGetNoUpdate {RC : Type} (calls : List (Call RC)) (get : Call RC) : Prop :=
  calls.filter Call.isGet = [get] ∧ ∀ c ∈ calls, c.isUpdate = false

/-! ## Statements about the update path -/

section UpdatePath

variable {σ Err M T S PV : Type}

theorem onlyReplicasSet_setReplicas (rc : v1.ReplicationController M T S)
    (spec : ReplicationControllerSpec) : OnlyReplicasSet rc spec (setReplicas rc spec) :=
  ⟨rfl, rfl, rfl, rfl, rfl, rfl, rfl⟩

theorem UpdateReplicasCountWithMultiTenancy_of_get_error
    (client : Client σ Err PV (v1.ReplicationController M T S)) (s : σ)
    (tenant ns name : String) (spec : ReplicationControllerSpec) (e : Err) (s1 : σ)
    (hget : client.ReplicationControllersGet s ns tenant name = (Except.error e, s1)) :
    (UpdateReplicasCountWithMultiTenancy client s tenant ns name spec).value = some e ∧
    clientCalls (UpdateReplicasCountWithMultiTenancy client s tenant ns name spec).trace =
      [Call.getReplicationController ns tenant name] ∧
    (UpdateReplicasCountWithMultiTenancy client s tenant ns name spec).state = s1 := by
  unfold UpdateReplicasCountWithMultiTenancy
  rw [hget]
  simp [clientCalls]

theorem UpdateReplicasCountWithMultiTenancy_of_update_error
    (client : Client σ Err PV (v1.ReplicationController M T S)) (s : σ)
    (tenant ns name : String) (spec : ReplicationControllerSpec)
    (rc : v1.ReplicationController M T S) (s1 : σ) (e : Err) (s2 : σ)
    (hget : client.ReplicationControllersGet s ns tenant name = (Except.ok rc, s1))
    (hupd : client.ReplicationControllersUpdate s1 ns tenant (setReplicas rc spec)
      = (Except.error e, s2)) :
    (UpdateReplicasCountWithMultiTenancy client s tenant ns name spec).value = some e ∧
    clientCalls (UpdateReplicasCountWithMultiTenancy client s tenant ns name spec).trace =
      [Call.getReplicationController ns tenant name,
       Call.updateReplicationController ns tenant (setReplicas rc spec)] ∧
    (UpdateReplicasCountWithMultiTenancy client s tenant ns name spec).state = s2 := by
  unfold UpdateReplicasCountWithMultiTenancy
  rw [hget]
  simp [hupd, clientCalls]

theorem UpdateReplicasCountWithMultiTenancy_of_update_ok
    (client : Client σ Err PV (v1.ReplicationController M T S)) (s : σ)
    (tenant ns name : String) (spec : ReplicationControllerSpec)
    (rc : v1.ReplicationController M T S) (s1 : σ) (r : v1.ReplicationController M T S) (s2 : σ)
    (hget : client.ReplicationControllersGet s ns tenant name = (Except.ok rc, s1))
    (hupd : client.ReplicationControllersUpdate s1 ns tenant (setReplicas rc spec)
      = (Except.ok r, s2)) :
    (UpdateReplicasCountWithMultiTenancy client s tenant ns name spec).value = none ∧
    clientCalls (UpdateReplicasCountWithMultiTenancy client s tenant ns name spec).trace =
      [Call.getReplicationController ns tenant name,
       Call.updateReplicationController ns tenant (setReplicas rc spec)] ∧
    (UpdateReplicasCountWithMultiTenancy client s tenant ns name spec).state = s2 := by
  unfold UpdateReplicasCountWithMultiTenancy
  rw [hget]
  simp [hupd, clientCalls]

/-- The two update functions agree at the empty tenant on everything but the
wording of their log lines. -/
theorem UpdateReplicasCount_eq_emptyTenant
    (client : Client σ Err PV (v1.ReplicationController M T S)) (s : σ) (ns name : String)
    (spec : ReplicationControllerSpec) :
    (UpdateReplicasCount client s ns name spec).value =
      (UpdateReplicasCountWithMultiTenancy client s "" ns name spec).value ∧
    clientCalls (UpdateReplicasCount client s ns name spec).trace =
      clientCalls (UpdateReplicasCountWithMultiTenancy client s "" ns name spec).trace ∧
    (UpdateReplicasCount client s ns name spec).state =
      (UpdateReplicasCountWithMultiTenancy client s "" ns name spec).state := by
  unfold UpdateReplicasCount UpdateReplicasCountWithMultiTenancy
  cases client.ReplicationControllersGet s ns "" name with
  | mk g s1 =>
    cases g with
    | error e => simp [clientCalls]
    | ok rc =>
      cases hupd : client.ReplicationControllersUpdate s1 ns "" (setReplicas rc spec) with
      | mk r s2 => cases r <;> simp [hupd, clientCalls]

theorem UpdateReplicasCountWithMultiTenancy_value_eq_none_iff
    (client : Client σ Err PV (v1.ReplicationController M T S)) (s : σ)
    (tenant ns name : String) (spec : ReplicationControllerSpec) :
    (UpdateReplicasCountWithMultiTenancy client s tenant ns name spec).value = none ↔
      ∃ rc s1 r s2, client.ReplicationControllersGet s ns tenant name = (Except.ok rc, s1) ∧
        client.ReplicationControllersUpdate s1 ns tenant (setReplicas rc spec)
          = (Except.ok r, s2) := by
  constructor
  · intro hv
    obtain ⟨g, s1, hg⟩ : ∃ g s1, client.ReplicationControllersGet s ns tenant name = (g, s1) :=
      ⟨_, _, rfl⟩
    cases g with
    | error e =>
      rw [(UpdateReplicasCountWithMultiTenancy_of_get_error client s tenant ns name spec e s1
        hg).1] at hv
      cases hv
    | ok rc =>
      obtain ⟨r, s2, hu⟩ : ∃ r s2, client.ReplicationControllersUpdate s1 ns tenant
          (setReplicas rc spec) = (r, s2) := ⟨_, _, rfl⟩
      cases r with
      | error e =>
        rw [(UpdateReplicasCountWithMultiTenancy_of_update_error client s tenant ns name spec
          rc s1 e s2 hg hu).1] at hv
        cases hv
      | ok r => exact ⟨rc, s1, r, s2, hg, hu⟩
  · rintro ⟨rc, s1, r, s2, hg, hu⟩
    exact (UpdateReplicasCountWithMultiTenancy_of_update_ok client s tenant ns name spec rc s1
      r s2 hg hu).1

/-- Claim C1. When the Get succeeds with object `rc`, the requests of
`UpdateReplicasCount` (and of `UpdateReplicasCountWithMultiTenancy`) are the
Get followed by one Update, issued with the namespace and tenant of the Get on
the client state the Get left, whose object is `rc` with `Spec.Replicas` set to
`spec.Replicas` and every other field (type and object metadata, the other
spec fields, status) unchanged. -/
theorem update_sends_fetched_object_with_replicas_set
    (client : Client σ Err PV (v1.ReplicationController M T S)) (s : σ) (ns name : String)
    (spec : ReplicationControllerSpec) :
    (∀ rc s1, client.ReplicationControllersGet s ns "" name = (Except.ok rc, s1) →
      ∃ obj, OnlyReplicasSet rc spec obj ∧
        clientCalls (UpdateReplicasCount client s ns name spec).trace =
          [Call.getReplicationController ns "" name,
           Call.updateReplicationController ns "" obj] ∧
        (UpdateReplicasCount client s ns name spec).state =
          (client.ReplicationControllersUpdate s1 ns "" obj).2) ∧
    (∀ tenant rc s1, client.ReplicationControllersGet s ns tenant name = (Except.ok rc, s1) →
      ∃ obj, OnlyReplicasSet rc spec obj ∧
        clientCalls (UpdateReplicasCountWithMultiTenancy client s tenant ns name spec).trace =
          [Call.getReplicationController ns tenant name,
           Call.updateReplicationController ns tenant obj] ∧
        (UpdateReplicasCountWithMultiTenancy client s tenant ns name spec).state =
          (client.ReplicationControllersUpdate s1 ns tenant obj).2) := by
  refine ⟨?_, ?_⟩
  · intro rc s1 hget
    refine ⟨setReplicas rc spec, onlyReplicasSet_setReplicas rc spec, ?_⟩
    unfold UpdateReplicasCount
    rw [hget]
    cases hupd : client.ReplicationControllersUpdate s1 ns "" (setReplicas rc spec) with
    | mk r s2 => cases r <;> simp [hupd, clientCalls]
  · intro tenant rc s1 hget
    refine ⟨setReplicas rc spec, onlyReplicasSet_setReplicas rc spec, ?_⟩
    unfold UpdateReplicasCountWithMultiTenancy
    rw [hget]
    cases hupd : client.ReplicationControllersUpdate s1 ns tenant (setReplicas rc spec) with
    | mk r s2 => cases r <;> simp [hupd, clientCalls]

/-- Witness of claim C1 on the example store: the update of `rc-1` in
`default` to five replicas sends the stored object with only the replicas
changed. -/
theorem update_sends_fetched_object_with_replicas_set_witness :
    ∃ obj, OnlyReplicasSet (Example.rc1 ⟨2, by decide⟩) Example.five obj ∧
      clientCalls (UpdateReplicasCount Example.client Example.store "default" "rc-1"
        Example.five).trace =
        [Call.getReplicationController "default" "" "rc-1",
         Call.updateReplicationController "default" "" obj] ∧
      (UpdateReplicasCount Example.client Example.store "default" "rc-1" Example.five).state =
        (Example.client.ReplicationControllersUpdate Example.store "default" "" obj).2 :=
  (update_sends_fetched_object_with_replicas_set Example.client Example.store "default" "rc-1"
    Example.five).1 (Example.rc1 ⟨2, by decide⟩) Example.store rfl

/-- Claim C2. `UpdateReplicasCount` and `UpdateReplicasCountWithMultiTenancy`
return nil exactly when the Get and then the Update succeed. When the Get
fails with `e` they return `e`, their only request is the Get (no Update) and
the client state is the one the Get left, which for a client whose Gets leave
the state alone is the state before the call. When the Get succeeds and the
Update fails with `e` they return `e`. -/
theorem update_returns_nil_iff_get_and_update_succeed
    (client : Client σ Err PV (v1.ReplicationController M T S)) (s : σ) (ns name : String)
    (spec : ReplicationControllerSpec) :
    (((UpdateReplicasCount client s ns name spec).value = none ↔
        ∃ rc s1 r s2, client.ReplicationControllersGet s ns "" name = (Except.ok rc, s1) ∧
          client.ReplicationControllersUpdate s1 ns "" (setReplicas rc spec)
            = (Except.ok r, s2)) ∧
      (∀ e s1, client.ReplicationControllersGet s ns "" name = (Except.error e, s1) →
        (UpdateReplicasCount client s ns name spec).value = some e ∧
        clientCalls (UpdateReplicasCount client s ns name spec).trace =
          [Call.getReplicationController ns "" name] ∧
        (UpdateReplicasCount client s ns name spec).state = s1 ∧
        (GetsLeaveState client → (UpdateReplicasCount client s ns name spec).state = s)) ∧
      (∀ rc s1 e s2, client.ReplicationControllersGet s ns "" name = (Except.ok rc, s1) →
        client.ReplicationControllersUpdate s1 ns "" (setReplicas rc spec)
          = (Except.error e, s2) →
        (UpdateReplicasCount client s ns name spec).value = some e)) ∧
    (∀ tenant,
      ((UpdateReplicasCountWithMultiTenancy client s tenant ns name spec).value = none ↔
        ∃ rc s1 r s2, client.ReplicationControllersGet s ns tenant name = (Except.ok rc, s1) ∧
          client.ReplicationControllersUpdate s1 ns tenant (setReplicas rc spec)
            = (Except.ok r, s2)) ∧
      (∀ e s1, client.ReplicationControllersGet s ns tenant name = (Except.error e, s1) →
        (UpdateReplicasCountWithMultiTenancy client s tenant ns name spec).value = some e ∧
        clientCalls (UpdateReplicasCountWithMultiTenancy client s tenant ns name spec).trace =
          [Call.getReplicationController ns tenant name] ∧
        (UpdateReplicasCountWithMultiTenancy client s tenant ns name spec).state = s1 ∧
        (GetsLeaveState client → (UpdateReplicasCountWithMultiTenancy client s tenant ns name spec).state = s)) ∧
      (∀ rc s1 e s2, client.ReplicationControllersGet s ns tenant name = (Except.ok rc, s1) →
        client.ReplicationControllersUpdate s1 ns tenant (setReplicas rc spec)
          = (Except.error e, s2) →
        (UpdateReplicasCountWithMultiTenancy client s tenant ns name spec).value = some e)) := by
  have hv := (UpdateReplicasCount_eq_emptyTenant client s ns name spec).1
  have hc := (UpdateReplicasCount_eq_emptyTenant client s ns name spec).2.1
  have hs := (UpdateReplicasCount_eq_emptyTenant client s ns name spec).2.2
  refine ⟨⟨?_, ?_, ?_⟩, fun tenant => ⟨?_, ?_, ?_⟩⟩
  · rw [hv]
    exact UpdateReplicasCountWithMultiTenancy_value_eq_none_iff client s "" ns name spec
  · intro e s1 hget
    rw [hv, hc, hs]
    have h := UpdateReplicasCountWithMultiTenancy_of_get_error client s "" ns name spec e s1 hget
    refine ⟨h.1, h.2.1, h.2.2, fun hro => ?_⟩
    rw [h.2.2, ← hro.2 s ns "" name, hget]
  · intro rc s1 e s2 hget hupd
    rw [hv]
    exact (UpdateReplicasCountWithMultiTenancy_of_update_error client s "" ns name spec rc s1
      e s2 hget hupd).1
  · exact UpdateReplicasCountWithMultiTenancy_value_eq_none_iff client s tenant ns name spec
  · intro e s1 hget
    have h := UpdateReplicasCountWithMultiTenancy_of_get_error client s tenant ns name spec e s1
      hget
    refine ⟨h.1, h.2.1, h.2.2, fun hro => ?_⟩
    rw [h.2.2, ← hro.2 s ns tenant name, hget]
  · intro rc s1 e s2 hget hupd
    exact (UpdateReplicasCountWithMultiTenancy_of_update_error client s tenant ns name spec rc
      s1 e s2 hget hupd).1

/-- Witness of claim C2 on the example store: there is no `rc-9` in `default`,
the Get fails with "not found", and the update returns that error after the Get
alone, the store as it was. -/
theorem update_returns_nil_iff_get_and_update_succeed_witness :
    (UpdateReplicasCount Example.client Example.store "default" "rc-9" Example.five).value
      = some "not found" ∧
    clientCalls (UpdateReplicasCount Example.client Example.store "default" "rc-9"
      Example.five).trace = [Call.getReplicationController "default" "" "rc-9"] ∧
    (UpdateReplicasCount Example.client Example.store "default" "rc-9" Example.five).state
      = Example.store ∧
    (GetsLeaveState Example.client →
      (UpdateReplicasCount Example.client Example.store "default" "rc-9" Example.five).state
        = Example.store) :=
  (update_returns_nil_iff_get_and_update_succeed Example.client Example.store "default" "rc-9"
    Example.five).1.2.1 "not found" Example.store rfl

end UpdatePath

/-! ## Statements about the detail getters -/

section DetailGetters

variable {σ Err M V R PVItem Mrc T S PodInfo RCItem PV RC : Type}

theorem GetPersistentVolumeDetail_eq_emptyTenant
    (toPersistentVolume : v1.PersistentVolume M V R → PVItem)
    (client : Client σ Err (v1.PersistentVolume M V R) RC) (s : σ) (name : String) :
    GetPersistentVolumeDetailWithMultiTenancy toPersistentVolume client s "" name =
      GetPersistentVolumeDetail toPersistentVolume client s name := rfl

theorem GetPersistentVolumeDetailWithMultiTenancy_of_get_error
    (toPersistentVolume : v1.PersistentVolume M V R → PVItem)
    (client : Client σ Err (v1.PersistentVolume M V R) RC) (s : σ) (tenant name : String)
    (e : Err) (s1 : σ) (hget : client.PersistentVolumesGet s tenant name = (Except.error e, s1)) :
    (GetPersistentVolumeDetailWithMultiTenancy toPersistentVolume client s tenant name).value
      = (none, some e) := by
  unfold GetPersistentVolumeDetailWithMultiTenancy
  rw [hget]

theorem GetPersistentVolumeDetailWithMultiTenancy_of_get_ok
    (toPersistentVolume : v1.PersistentVolume M V R → PVItem)
    (client : Client σ Err (v1.PersistentVolume M V R) RC) (s : σ) (tenant name : String)
    (pv : v1.PersistentVolume M V R) (s1 : σ)
    (hget : client.PersistentVolumesGet s tenant name = (Except.ok pv, s1)) :
    (GetPersistentVolumeDetailWithMultiTenancy toPersistentVolume client s tenant name).value
      = (some (getPersistentVolumeDetail toPersistentVolume pv), none) := by
  unfold GetPersistentVolumeDetailWithMultiTenancy
  rw [hget]

theorem GetPersistentVolumeDetailWithMultiTenancy_effects
    (toPersistentVolume : v1.PersistentVolume M V R → PVItem)
    (client : Client σ Err (v1.PersistentVolume M V R) RC) (s : σ) (tenant name : String) :
    clientCalls
      (GetPersistentVolumeDetailWithMultiTenancy toPersistentVolume client s tenant name).trace
      = [Call.getPersistentVolume tenant name] ∧
    (GetPersistentVolumeDetailWithMultiTenancy toPersistentVolume client s tenant name).state
      = (client.PersistentVolumesGet s tenant name).2 := by
  unfold GetPersistentVolumeDetailWithMultiTenancy
  cases client.PersistentVolumesGet s tenant name with
  | mk g s1 => cases g <;> simp [clientCalls]

theorem GetReplicationControllerDetailWithMultiTenancy_of_get_error
    (deps : Deps σ Err (v1.ReplicationController Mrc T S) PodInfo RCItem)
    (client : Client σ Err PV (v1.ReplicationController Mrc T S)) (s : σ)
    (tenant ns name : String) (e : Err) (s1 : σ)
    (hget : client.ReplicationControllersGet s ns tenant name = (Except.error e, s1)) :
    (GetReplicationControllerDetailWithMultiTenancy deps client s tenant ns name).value
      = GoResult.returned (none, some e) ∧
    clientCalls (GetReplicationControllerDetailWithMultiTenancy deps client s tenant ns name).trace
      = [Call.getReplicationController ns tenant name] ∧
    (GetReplicationControllerDetailWithMultiTenancy deps client s tenant ns name).state
      = s1 := by
  unfold GetReplicationControllerDetailWithMultiTenancy
  rw [hget]
  simp [clientCalls]

theorem GetReplicationControllerDetailWithMultiTenancy_of_critical
    (deps : Deps σ Err (v1.ReplicationController Mrc T S) PodInfo RCItem)
    (client : Client σ Err PV (v1.ReplicationController Mrc T S)) (s : σ)
    (tenant ns name : String) (rc : v1.ReplicationController Mrc T S) (s1 : σ)
    (ncs : List Err) (c : Err)
    (hget : client.ReplicationControllersGet s ns tenant name = (Except.ok rc, s1))
    (hcls : deps.HandleError
      (getReplicationControllerPodInfoWithMultiTenancy deps s1 rc tenant ns).value.2
        = (ncs, some c)) :
    (GetReplicationControllerDetailWithMultiTenancy deps client s tenant ns name).value
      = GoResult.returned (none, some c) ∧
    clientCalls (GetReplicationControllerDetailWithMultiTenancy deps client s tenant ns name).trace
      = [Call.getReplicationController ns tenant name, Call.fetchPodInfo rc tenant ns] ∧
    (GetReplicationControllerDetailWithMultiTenancy deps client s tenant ns name).state
      = (deps.podInfoFetch s1 rc tenant ns).2 := by
  unfold GetReplicationControllerDetailWithMultiTenancy
  rw [hget]
  simp only [hcls]
  simp [clientCalls, getReplicationControllerPodInfoWithMultiTenancy]

theorem GetReplicationControllerDetailWithMultiTenancy_of_non_critical
    (deps : Deps σ Err (v1.ReplicationController Mrc T S) PodInfo RCItem)
    (client : Client σ Err PV (v1.ReplicationController Mrc T S)) (s : σ)
    (tenant ns name : String) (rc : v1.ReplicationController Mrc T S) (s1 : σ)
    (ncs : List Err)
    (hget : client.ReplicationControllersGet s ns tenant name = (Except.ok rc, s1))
    (hcls : deps.HandleError
      (getReplicationControllerPodInfoWithMultiTenancy deps s1 rc tenant ns).value.2
        = (ncs, none)) :
    (GetReplicationControllerDetailWithMultiTenancy deps client s tenant ns name).value
      = (match deps.ToReplicationController rc
          (getReplicationControllerPodInfoWithMultiTenancy deps s1 rc tenant ns).value.1 with
        | GoResult.panicked => GoResult.panicked
        | GoResult.returned item =>
            GoResult.returned
              (some { ReplicationController := item, LabelSelector := rc.Spec.Selector,
                      Errors := ncs }, none)) ∧
    clientCalls (GetReplicationControllerDetailWithMultiTenancy deps client s tenant ns name).trace
      = [Call.getReplicationController ns tenant name, Call.fetchPodInfo rc tenant ns] ∧
    (GetReplicationControllerDetailWithMultiTenancy deps client s tenant ns name).state
      = (deps.podInfoFetch s1 rc tenant ns).2 := by
  unfold GetReplicationControllerDetailWithMultiTenancy
  rw [hget]
  simp only [hcls]
  refine ⟨?_, by simp [clientCalls, getReplicationControllerPodInfoWithMultiTenancy],
    by simp [getReplicationControllerPodInfoWithMultiTenancy]⟩
  unfold toReplicationControllerDetail
  cases deps.ToReplicationController rc
    (getReplicationControllerPodInfoWithMultiTenancy deps s1 rc tenant ns).value.1 <;> rfl

/-- The two replication controller getters agree at the empty tenant on
everything but the wording of their log line. -/
theorem GetReplicationControllerDetail_eq_emptyTenant
    (deps : Deps σ Err (v1.ReplicationController Mrc T S) PodInfo RCItem)
    (client : Client σ Err PV (v1.ReplicationController Mrc T S)) (s : σ) (ns name : String) :
    (GetReplicationControllerDetail deps client s ns name).value =
      (GetReplicationControllerDetailWithMultiTenancy deps client s "" ns name).value ∧
    clientCalls (GetReplicationControllerDetail deps client s ns name).trace =
      clientCalls (GetReplicationControllerDetailWithMultiTenancy deps client s "" ns name).trace ∧
    (GetReplicationControllerDetail deps client s ns name).state =
      (GetReplicationControllerDetailWithMultiTenancy deps client s "" ns name).state := by
  unfold GetReplicationControllerDetail GetReplicationControllerDetailWithMultiTenancy
    getReplicationControllerPodInfo
  cases client.ReplicationControllersGet s ns "" name with
  | mk g s1 =>
    cases g with
    | error e => simp [clientCalls]
    | ok rc =>
      simp only []
      cases hcls : deps.HandleError
          (getReplicationControllerPodInfoWithMultiTenancy deps s1 rc "" ns).value.2 with
      | mk ncs c => cases c <;> simp [clientCalls, getReplicationControllerPodInfoWithMultiTenancy]

/-- Claim C3. In each of the four detail getters, when the primary get-by-key
fails with error `e` the getter returns (it does not panic) the nil result
together with `e`; in
the two replication controller getters the Get is then the only request, so no
pod-info fetch is made. -/
theorem detail_getters_return_primary_get_error
    (toPersistentVolume : v1.PersistentVolume M V R → PVItem)
    (deps : Deps σ Err (v1.ReplicationController Mrc T S) PodInfo RCItem)
    (client : Client σ Err (v1.PersistentVolume M V R) (v1.ReplicationController Mrc T S))
    (s : σ) (tenant ns name : String) (e : Err) (s1 : σ) :
    (client.PersistentVolumesGet s "" name = (Except.error e, s1) →
      (GetPersistentVolumeDetail toPersistentVolume client s name).value = (none, some e)) ∧
    (client.PersistentVolumesGet s tenant name = (Except.error e, s1) →
      (GetPersistentVolumeDetailWithMultiTenancy toPersistentVolume client s tenant name).value
        = (none, some e)) ∧
    (client.ReplicationControllersGet s ns "" name = (Except.error e, s1) →
      (GetReplicationControllerDetail deps client s ns name).value
        = GoResult.returned (none, some e) ∧
      clientCalls (GetReplicationControllerDetail deps client s ns name).trace
        = [Call.getReplicationController ns "" name] ∧
      ∀ rc t n, Call.fetchPodInfo rc t n ∉
        clientCalls (GetReplicationControllerDetail deps client s ns name).trace) ∧
    (client.ReplicationControllersGet s ns tenant name = (Except.error e, s1) →
      (GetReplicationControllerDetailWithMultiTenancy deps client s tenant ns name).value
        = GoResult.returned (none, some e) ∧
      clientCalls
        (GetReplicationControllerDetailWithMultiTenancy deps client s tenant ns name).trace
        = [Call.getReplicationController ns tenant name] ∧
      ∀ rc t n, Call.fetchPodInfo rc t n ∉ clientCalls
        (GetReplicationControllerDetailWithMultiTenancy deps client s tenant ns name).trace) := by
  refine ⟨?_, ?_, ?_, ?_⟩
  · intro hget
    rw [← GetPersistentVolumeDetail_eq_emptyTenant]
    exact GetPersistentVolumeDetailWithMultiTenancy_of_get_error toPersistentVolume client s ""
      name e s1 hget
  · intro hget
    exact GetPersistentVolumeDetailWithMultiTenancy_of_get_error toPersistentVolume client s
      tenant name e s1 hget
  · intro hget
    have h := GetReplicationControllerDetailWithMultiTenancy_of_get_error deps client s "" ns
      name e s1 hget
    have heq := GetReplicationControllerDetail_eq_emptyTenant deps client s ns name
    rw [heq.1, heq.2.1]
    refine ⟨h.1, h.2.1, ?_⟩
    intro rc t n
    rw [h.2.1]
    simp
  · intro hget
    have h := GetReplicationControllerDetailWithMultiTenancy_of_get_error deps client s tenant
      ns name e s1 hget
    refine ⟨h.1, h.2.1, ?_⟩
    intro rc t n
    rw [h.2.1]
    simp

/-- Witness of claim C3 on the example store: there is no controller `rc-9` in
`default`, and the getter returns no detail and the error "not found" after
the Get alone. -/
theorem detail_getters_return_primary_get_error_witness :
    (GetReplicationControllerDetail Example.deps Example.client Example.store "default"
      "rc-9").value = GoResult.returned (none, some "not found") ∧
    clientCalls (GetReplicationControllerDetail Example.deps Example.client Example.store
      "default" "rc-9").trace = [Call.getReplicationController "default" "" "rc-9"] ∧
    ∀ rc t n, Call.fetchPodInfo rc t n ∉ clientCalls
      (GetReplicationControllerDetail Example.deps Example.client Example.store "default"
        "rc-9").trace :=
  (detail_getters_return_primary_get_error (fun pv : Example.PV => pv.ObjectMeta) Example.deps
    Example.client Example.store "" "default" "rc-9" "not found" Example.store).2.2.1 rfl

/-- Claim C4. In both replication controller getters, when the primary Get
succeeds and `errors.HandleError`, applied to the error of the pod-info fetch,
returns a non-nil critical error `c`, the getter returns (it does not panic)
the nil result together with `c`, whatever list of non-critical errors comes
with it. -/
theorem detail_getter_returns_critical_error
    (deps : Deps σ Err (v1.ReplicationController Mrc T S) PodInfo RCItem)
    (client : Client σ Err PV (v1.ReplicationController Mrc T S)) (s : σ)
    (tenant ns name : String) (rc : v1.ReplicationController Mrc T S) (s1 : σ)
    (nonCriticalErrors : List Err) (c : Err) :
    (client.ReplicationControllersGet s ns "" name = (Except.ok rc, s1) →
      deps.HandleError (getReplicationControllerPodInfo deps s1 rc ns).value.2
        = (nonCriticalErrors, some c) →
      (GetReplicationControllerDetail deps client s ns name).value
        = GoResult.returned (none, some c)) ∧
    (client.ReplicationControllersGet s ns tenant name = (Except.ok rc, s1) →
      deps.HandleError (getReplicationControllerPodInfoWithMultiTenancy deps s1 rc tenant
        ns).value.2 = (nonCriticalErrors, some c) →
      (GetReplicationControllerDetailWithMultiTenancy deps client s tenant ns name).value
        = GoResult.returned (none, some c)) := by
  refine ⟨?_, ?_⟩
  · intro hget hcls
    rw [(GetReplicationControllerDetail_eq_emptyTenant deps client s ns name).1]
    exact (GetReplicationControllerDetailWithMultiTenancy_of_critical deps client s "" ns name
      rc s1 nonCriticalErrors c hget hcls).1
  · intro hget hcls
    exact (GetReplicationControllerDetailWithMultiTenancy_of_critical deps client s tenant ns
      name rc s1 nonCriticalErrors c hget hcls).1

/-- Witness of claim C4 on the example store: in namespace `secure` the
pod-info fetch fails with "forbidden", which the classifier holds critical,
and the getter returns no detail and that error. -/
theorem detail_getter_returns_critical_error_witness :
    (GetReplicationControllerDetail Example.deps Example.client Example.store "secure"
      "rc-1").value = GoResult.returned (none, some "forbidden") :=
  (detail_getter_returns_critical_error Example.deps Example.client Example.store "" "secure"
    "rc-1" (Example.rc1 ⟨2, by decide⟩) Example.store [] "forbidden").1 rfl rfl

/-- The success path of both replication controller getters, for every list
projection. When the primary Get succeeds with object `rc` and
`errors.HandleError` returns a nil critical error, the getter calls
`ToReplicationController` on `rc` and on the pod-info pointer exactly as the
helper gave it. If that call returns a list item, the getter returns a nil
error and a detail with that list item, `LabelSelector` equal to
`rc.Spec.Selector` and `Errors` equal to the classifier's non-critical list.
If that call panics, the getter panics and returns nothing. -/
theorem detail_getter_success_path_follows_list_projection
    (deps : Deps σ Err (v1.ReplicationController Mrc T S) PodInfo RCItem)
    (client : Client σ Err PV (v1.ReplicationController Mrc T S)) (s : σ)
    (tenant ns name : String) (rc : v1.ReplicationController Mrc T S) (s1 : σ)
    (nonCriticalErrors : List Err) :
    (client.ReplicationControllersGet s ns "" name = (Except.ok rc, s1) →
      deps.HandleError (getReplicationControllerPodInfo deps s1 rc ns).value.2
        = (nonCriticalErrors, none) →
      (∀ item, deps.ToReplicationController rc
          (getReplicationControllerPodInfo deps s1 rc ns).value.1 = GoResult.returned item →
        ∃ d, (GetReplicationControllerDetail deps client s ns name).value
            = GoResult.returned (some d, none) ∧
          d.Errors = nonCriticalErrors ∧
          d.LabelSelector = rc.Spec.Selector ∧
          d.ReplicationController = item) ∧
      (deps.ToReplicationController rc
          (getReplicationControllerPodInfo deps s1 rc ns).value.1 = GoResult.panicked →
        (GetReplicationControllerDetail deps client s ns name).value = GoResult.panicked)) ∧
    (client.ReplicationControllersGet s ns tenant name = (Except.ok rc, s1) →
      deps.HandleError (getReplicationControllerPodInfoWithMultiTenancy deps s1 rc tenant
        ns).value.2 = (nonCriticalErrors, none) →
      (∀ item, deps.ToReplicationController rc
          (getReplicationControllerPodInfoWithMultiTenancy deps s1 rc tenant ns).value.1
            = GoResult.returned item →
        ∃ d, (GetReplicationControllerDetailWithMultiTenancy deps client s tenant ns name).value
            = GoResult.returned (some d, none) ∧
          d.Errors = nonCriticalErrors ∧
          d.LabelSelector = rc.Spec.Selector ∧
          d.ReplicationController = item) ∧
      (deps.ToReplicationController rc
          (getReplicationControllerPodInfoWithMultiTenancy deps s1 rc tenant ns).value.1
            = GoResult.panicked →
        (GetReplicationControllerDetailWithMultiTenancy deps client s tenant ns name).value
          = GoResult.panicked)) := by
  have key : ∀ t, client.ReplicationControllersGet s ns t name = (Except.ok rc, s1) →
      deps.HandleError (getReplicationControllerPodInfoWithMultiTenancy deps s1 rc t
        ns).value.2 = (nonCriticalErrors, none) →
      (∀ item, deps.ToReplicationController rc
          (getReplicationControllerPodInfoWithMultiTenancy deps s1 rc t ns).value.1
            = GoResult.returned item →
        ∃ d, (GetReplicationControllerDetailWithMultiTenancy deps client s t ns name).value
            = GoResult.returned (some d, none) ∧
          d.Errors = nonCriticalErrors ∧
          d.LabelSelector = rc.Spec.Selector ∧
          d.ReplicationController = item) ∧
      (deps.ToReplicationController rc
          (getReplicationControllerPodInfoWithMultiTenancy deps s1 rc t ns).value.1
            = GoResult.panicked →
        (GetReplicationControllerDetailWithMultiTenancy deps client s t ns name).value
          = GoResult.panicked) := by
    intro t hget hcls
    have h := (GetReplicationControllerDetailWithMultiTenancy_of_non_critical deps client s t
      ns name rc s1 nonCriticalErrors hget hcls).1
    refine ⟨fun item hitem => ?_, fun hpanic => ?_⟩
    · rw [hitem] at h
      exact ⟨_, h, rfl, rfl, rfl⟩
    · rw [hpanic] at h
      exact h
  refine ⟨?_, key tenant⟩
  intro hget hcls
  rw [(GetReplicationControllerDetail_eq_emptyTenant deps client s ns name).1]
  exact key "" hget hcls

/-- Witness of `detail_getter_success_path_follows_list_projection` on the
example store: in namespace `default` the fetch gives three pods, the
projection returns, and the getter returns the detail of `rc-1` with no
errors. -/
theorem detail_getter_success_path_follows_list_projection_witness :
    ∃ d, (GetReplicationControllerDetail Example.deps Example.client Example.store "default"
        "rc-1").value = GoResult.returned (some d, none) ∧
      d.Errors = [] ∧
      d.LabelSelector = (Example.rc1 ⟨2, by decide⟩).Spec.Selector ∧
      d.ReplicationController = ("rc-1", 3) :=
  ((detail_getter_success_path_follows_list_projection Example.deps Example.client
    Example.store "" "default" "rc-1" (Example.rc1 ⟨2, by decide⟩) Example.store []).1
    rfl rfl).1 ("rc-1", 3) rfl

/-- Claim C6. At the empty ("all tenants") tenant each tenant-qualified
function gives the same returned values, the same client requests in the same
order and the same client state as its counterpart without a tenant: the two
persistent volume getters, the two replication controller getters and the two
replica updates. -/
theorem tenant_variants_agree_at_empty_tenant
    (toPersistentVolume : v1.PersistentVolume M V R → PVItem)
    (deps : Deps σ Err (v1.ReplicationController Mrc T S) PodInfo RCItem)
    (client : Client σ Err (v1.PersistentVolume M V R) (v1.ReplicationController Mrc T S))
    (s : σ) (ns name : String) (spec : ReplicationControllerSpec) :
    ((GetPersistentVolumeDetailWithMultiTenancy toPersistentVolume client s "" name).value
        = (GetPersistentVolumeDetail toPersistentVolume client s name).value ∧
      clientCalls
          (GetPersistentVolumeDetailWithMultiTenancy toPersistentVolume client s "" name).trace
        = clientCalls (GetPersistentVolumeDetail toPersistentVolume client s name).trace ∧
      (GetPersistentVolumeDetailWithMultiTenancy toPersistentVolume client s "" name).state
        = (GetPersistentVolumeDetail toPersistentVolume client s name).state) ∧
    ((GetReplicationControllerDetailWithMultiTenancy deps client s "" ns name).value
        = (GetReplicationControllerDetail deps client s ns name).value ∧
      clientCalls (GetReplicationControllerDetailWithMultiTenancy deps client s "" ns name).trace
        = clientCalls (GetReplicationControllerDetail deps client s ns name).trace ∧
      (GetReplicationControllerDetailWithMultiTenancy deps client s "" ns name).state
        = (GetReplicationControllerDetail deps client s ns name).state) ∧
    ((UpdateReplicasCountWithMultiTenancy client s "" ns name spec).value
        = (UpdateReplicasCount client s ns name spec).value ∧
      clientCalls (UpdateReplicasCountWithMultiTenancy client s "" ns name spec).trace
        = clientCalls (UpdateReplicasCount client s ns name spec).trace ∧
      (UpdateReplicasCountWithMultiTenancy client s "" ns name spec).state
        = (UpdateReplicasCount client s ns name spec).state) := by
  have hrc := GetReplicationControllerDetail_eq_emptyTenant deps client s ns name
  have hup := UpdateReplicasCount_eq_emptyTenant client s ns name spec
  refine ⟨?_, ⟨hrc.1.symm, hrc.2.1.symm, hrc.2.2.symm⟩, ⟨hup.1.symm, hup.2.1.symm, hup.2.2.symm⟩⟩
  rw [GetPersistentVolumeDetail_eq_emptyTenant]
  exact ⟨rfl, rfl, rfl⟩

/-- Claim C9. When the primary Get succeeds with the persistent volume `pv`,
`GetPersistentVolumeDetail` returns a nil error and the detail
`getPersistentVolumeDetail pv`: its list-item part is `toPersistentVolume pv`,
its `Message` is `pv.Status.Message` and its `PersistentVolumeSource` is
`pv.Spec.PersistentVolumeSource`. The projection has a value for every `pv` and
that value depends on `pv` alone: any other client, state, tenant and name
whose Get answers with the same `pv` lead to the same detail. -/
theorem persistent_volume_detail_is_projection_of_fetched_object
    (toPersistentVolume : v1.PersistentVolume M V R → PVItem)
    (client : Client σ Err (v1.PersistentVolume M V R) RC) (s : σ) (name : String)
    (pv : v1.PersistentVolume M V R) (s1 : σ)
    (hget : client.PersistentVolumesGet s "" name = (Except.ok pv, s1)) :
    ∃ d, (GetPersistentVolumeDetail toPersistentVolume client s name).value = (some d, none) ∧
      d = getPersistentVolumeDetail toPersistentVolume pv ∧
      d.PersistentVolume = toPersistentVolume pv ∧
      d.Message = pv.Status.Message ∧
      d.PersistentVolumeSource = pv.Spec.PersistentVolumeSource ∧
      ∀ (σ2 Err2 RC2 : Type) (client2 : Client σ2 Err2 (v1.PersistentVolume M V R) RC2)
        (s2 : σ2) (tenant2 name2 : String) (s3 : σ2),
        client2.PersistentVolumesGet s2 tenant2 name2 = (Except.ok pv, s3) →
        (GetPersistentVolumeDetailWithMultiTenancy toPersistentVolume client2 s2 tenant2
          name2).value = (some d, none) := by
  refine ⟨getPersistentVolumeDetail toPersistentVolume pv, ?_, rfl, rfl, rfl, rfl, ?_⟩
  · rw [← GetPersistentVolumeDetail_eq_emptyTenant]
    exact GetPersistentVolumeDetailWithMultiTenancy_of_get_ok toPersistentVolume client s ""
      name pv s1 hget
  · intro σ2 Err2 RC2 client2 s2 tenant2 name2 s3 hget2
    exact GetPersistentVolumeDetailWithMultiTenancy_of_get_ok toPersistentVolume client2 s2
      tenant2 name2 pv s3 hget2

/-- Witness of claim C9 on the example store: the detail of `pv-1`. -/
theorem persistent_volume_detail_is_projection_of_fetched_object_witness :
    ∃ d, (GetPersistentVolumeDetail (fun pv : Example.PV => pv.ObjectMeta) Example.client
        Example.store "pv-1").value = (some d, none) ∧
      d = getPersistentVolumeDetail (fun pv : Example.PV => pv.ObjectMeta) Example.pv1 ∧
      d.PersistentVolume = "pv-1" ∧
      d.Message = "ok" ∧
      d.PersistentVolumeSource = "nfs:/export" ∧
      ∀ (σ2 Err2 RC2 : Type) (client2 : Client σ2 Err2 Example.PV RC2)
        (s2 : σ2) (tenant2 name2 : String) (s3 : σ2),
        client2.PersistentVolumesGet s2 tenant2 name2 = (Except.ok Example.pv1, s3) →
        (GetPersistentVolumeDetailWithMultiTenancy (fun pv : Example.PV => pv.ObjectMeta)
          client2 s2 tenant2 name2).value = (some d, none) :=
  persistent_volume_detail_is_projection_of_fetched_object
    (fun pv : Example.PV => pv.ObjectMeta) Example.client Example.store "pv-1" Example.pv1
    Example.store rfl

theorem oneGetNoUpdate_effects
    (deps : Deps σ Err (v1.ReplicationController Mrc T S) PodInfo RCItem)
    (client : Client σ Err PV (v1.ReplicationController Mrc T S)) (s : σ)
    (tenant ns name : String) :
    OneGetNoUpdate
      (clientCalls
        (GetReplicationControllerDetailWithMultiTenancy deps client s tenant ns name).trace)
      (Call.getReplicationController ns tenant name) ∧
    (GetsLeaveState client → FetchLeavesState deps →
      (GetReplicationControllerDetailWithMultiTenancy deps client s tenant ns name).state
        = s) := by
  obtain ⟨g, s1, hg⟩ : ∃ g s1, client.ReplicationControllersGet s ns tenant name = (g, s1) :=
    ⟨_, _, rfl⟩
  have hs1 : GetsLeaveState client → s1 = s := by
    intro h
    have := h.2 s ns tenant name
    rw [hg] at this
    exact this
  cases g with
  | error e =>
    have h := GetReplicationControllerDetailWithMultiTenancy_of_get_error deps client s tenant
      ns name e s1 hg
    rw [h.2.1, h.2.2]
    exact ⟨⟨by simp [Call.isGet], by simp [Call.isUpdate]⟩, fun hc _ => hs1 hc⟩
  | ok rc =>
    obtain ⟨ncs, c, hcls⟩ : ∃ ncs c, deps.HandleError
        (getReplicationControllerPodInfoWithMultiTenancy deps s1 rc tenant ns).value.2
          = (ncs, c) := ⟨_, _, rfl⟩
    have h : clientCalls
        (GetReplicationControllerDetailWithMultiTenancy deps client s tenant ns name).trace
          = [Call.getReplicationController ns tenant name, Call.fetchPodInfo rc tenant ns] ∧
        (GetReplicationControllerDetailWithMultiTenancy deps client s tenant ns name).state
          = (deps.podInfoFetch s1 rc tenant ns).2 := by
      cases c with
      | none => exact (GetReplicationControllerDetailWithMultiTenancy_of_non_critical deps
          client s tenant ns name rc s1 ncs hg hcls).2
      | some c => exact (GetReplicationControllerDetailWithMultiTenancy_of_critical deps
          client s tenant ns name rc s1 ncs c hg hcls).2
    rw [h.1, h.2]
    refine ⟨⟨by simp [List.filter, Call.isGet], by simp [Call.isUpdate]⟩, fun hc hf => ?_⟩
    rw [hf, hs1 hc]

theorem storeClient_getsLeaveState {Err M T S PV : Type} (rules : StoreRules Err M T S) :
    GetsLeaveState
      (storeClient rules : Client (ClusterStore PV (v1.ReplicationController M T S)) Err PV
        (v1.ReplicationController M T S)) := by
  constructor
  · intro s tenant name
    simp only [storeClient]
    split <;> rfl
  · intro s ns tenant name
    simp only [storeClient]
    split <;> rfl

theorem Example.deps_fetchLeavesState : FetchLeavesState Example.deps := by
  intro s rc tenant ns
  simp only [Example.deps]
  split
  · rfl
  · split <;> rfl

/-- Claim C10. The detail getters only read. For every client, state and
input, the requests of each of the four getters hold exactly one get-by-key,
the one for the primary object, and no Update; and when the client's Gets and
the pod-info fetch leave the client state as it was (as reads of a store do),
the state after the getter is the state before it, whether the getter
succeeds or fails. -/
theorem detail_getters_only_read
    (toPersistentVolume : v1.PersistentVolume M V R → PVItem)
    (deps : Deps σ Err (v1.ReplicationController Mrc T S) PodInfo RCItem)
    (client : Client σ Err (v1.PersistentVolume M V R) (v1.ReplicationController Mrc T S))
    (s : σ) (tenant ns name : String) :
    (OneGetNoUpdate
        (clientCalls (GetPersistentVolumeDetail toPersistentVolume client s name).trace)
        (Call.getPersistentVolume "" name) ∧
      (GetsLeaveState client →
        (GetPersistentVolumeDetail toPersistentVolume client s name).state = s)) ∧
    (OneGetNoUpdate
        (clientCalls (GetPersistentVolumeDetailWithMultiTenancy toPersistentVolume client s
          tenant name).trace)
        (Call.getPersistentVolume tenant name) ∧
      (GetsLeaveState client →
        (GetPersistentVolumeDetailWithMultiTenancy toPersistentVolume client s tenant
          name).state = s)) ∧
    (OneGetNoUpdate
        (clientCalls (GetReplicationControllerDetail deps client s ns name).trace)
        (Call.getReplicationController ns "" name) ∧
      (GetsLeaveState client → FetchLeavesState deps →
        (GetReplicationControllerDetail deps client s ns name).state = s)) ∧
    (OneGetNoUpdate
        (clientCalls
          (GetReplicationControllerDetailWithMultiTenancy deps client s tenant ns name).trace)
        (Call.getReplicationController ns tenant name) ∧
      (GetsLeaveState client → FetchLeavesState deps →
        (GetReplicationControllerDetailWithMultiTenancy deps client s tenant ns name).state
          = s)) := by
  have hpv : ∀ t, OneGetNoUpdate
        (clientCalls (GetPersistentVolumeDetailWithMultiTenancy toPersistentVolume client s
          t name).trace)
        (Call.getPersistentVolume t name) ∧
      (GetsLeaveState client →
        (GetPersistentVolumeDetailWithMultiTenancy toPersistentVolume client s t
          name).state = s) := by
    intro t
    have h := GetPersistentVolumeDetailWithMultiTenancy_effects toPersistentVolume client s t name
    rw [h.1, h.2]
    exact ⟨⟨by simp [Call.isGet], by simp [Call.isUpdate]⟩, fun hc => hc.1 s t name⟩
  have heq := GetReplicationControllerDetail_eq_emptyTenant deps client s ns name
  refine ⟨?_, hpv tenant, ?_, oneGetNoUpdate_effects deps client s tenant ns name⟩
  · rw [← GetPersistentVolumeDetail_eq_emptyTenant]
    exact hpv ""
  · rw [heq.2.1, heq.2.2]
    exact oneGetNoUpdate_effects deps client s "" ns name

/-- Witness of claim C10 on the example store, whose Gets and whose pod-info
fetch leave the store alone: after the detail of `rc-1` in `default` the store
is the one before. -/
theorem detail_getters_only_read_witness :
    OneGetNoUpdate
      (clientCalls (GetReplicationControllerDetail Example.deps Example.client Example.store
        "default" "rc-1").trace)
      (Call.getReplicationController "default" "" "rc-1") ∧
    (GetReplicationControllerDetail Example.deps Example.client Example.store "default"
      "rc-1").state = Example.store :=
  have h := (detail_getters_only_read (fun pv : Example.PV => pv.ObjectMeta) Example.deps
    Example.client Example.store "" "default" "rc-1").2.2.1
  ⟨h.1, h.2 (storeClient_getsLeaveState Example.rules) Example.deps_fetchLeavesState⟩

end DetailGetters

/-! ## Statements about updates over the cluster store -/

section StoreUpdates

variable {Err M T S PV : Type}

theorem setReplicas_setReplicas (rc : v1.ReplicationController M T S)
    (spec : ReplicationControllerSpec) :
    setReplicas (setReplicas rc spec) spec = setReplicas rc spec := rfl

theorem putReplicationController_same (s : ClusterStore PV (v1.ReplicationController M T S))
    (tenant ns name : String) (obj : v1.ReplicationController M T S) :
    (s.putReplicationController tenant ns name obj).replicationControllers tenant ns name
      = some obj := by
  simp [ClusterStore.putReplicationController]

theorem putReplicationController_other (s : ClusterStore PV (v1.ReplicationController M T S))
    (tenant ns name name2 : String) (obj : v1.ReplicationController M T S) (h : name2 ≠ name) :
    (s.putReplicationController tenant ns name obj).replicationControllers tenant ns name2
      = s.replicationControllers tenant ns name2 := by
  simp [ClusterStore.putReplicationController, h]

theorem putReplicationController_put (s : ClusterStore PV (v1.ReplicationController M T S))
    (tenant ns name : String) (obj : v1.ReplicationController M T S) :
    (s.putReplicationController tenant ns name obj).putReplicationController tenant ns name obj
      = s.putReplicationController tenant ns name obj := by
  unfold ClusterStore.putReplicationController
  congr 1
  funext t n k
  by_cases h : t = tenant ∧ n = ns ∧ k = name <;> simp [h]

theorem storeClient_get_some (rules : StoreRules Err M T S)
    (s : ClusterStore PV (v1.ReplicationController M T S)) (tenant ns name : String)
    (rc : v1.ReplicationController M T S)
    (h : s.replicationControllers tenant ns name = some rc) :
    (storeClient rules).ReplicationControllersGet s ns tenant name = (Except.ok rc, s) := by
  simp [storeClient, h]

theorem storeClient_get_none (rules : StoreRules Err M T S)
    (s : ClusterStore PV (v1.ReplicationController M T S)) (tenant ns name : String)
    (h : s.replicationControllers tenant ns name = none) :
    (storeClient rules).ReplicationControllersGet s ns tenant name
      = (Except.error rules.notFound, s) := by
  simp [storeClient, h]

theorem storeClient_update_rejected (rules : StoreRules Err M T S)
    (s : ClusterStore PV (v1.ReplicationController M T S)) (tenant ns : String)
    (obj : v1.ReplicationController M T S) (e : Err) (h : rules.validate obj = some e) :
    (storeClient rules).ReplicationControllersUpdate s ns tenant obj = (Except.error e, s) := by
  simp [storeClient, h]

theorem storeClient_update_missing (rules : StoreRules Err M T S)
    (s : ClusterStore PV (v1.ReplicationController M T S)) (tenant ns : String)
    (obj : v1.ReplicationController M T S) (h : rules.validate obj = none)
    (hk : s.replicationControllers tenant ns (rules.nameOf obj.ObjectMeta) = none) :
    (storeClient rules).ReplicationControllersUpdate s ns tenant obj
      = (Except.error rules.notFound, s) := by
  simp [storeClient, h, hk]

theorem storeClient_update_stored (rules : StoreRules Err M T S)
    (s : ClusterStore PV (v1.ReplicationController M T S)) (tenant ns : String)
    (obj old : v1.ReplicationController M T S) (h : rules.validate obj = none)
    (hk : s.replicationControllers tenant ns (rules.nameOf obj.ObjectMeta) = some old) :
    (storeClient rules).ReplicationControllersUpdate s ns tenant obj
      = (Except.ok obj, s.putReplicationController tenant ns (rules.nameOf obj.ObjectMeta) obj) := by
  simp [storeClient, h, hk]

/-- Over the cluster store an update either fails and leaves the store as it
was, or finds `rc` under the key, is admitted, and stores `rc` with the new
replica count under the name `rc` carries. -/
theorem UpdateReplicasCountWithMultiTenancy_store (rules : StoreRules Err M T S)
    (s : ClusterStore PV (v1.ReplicationController M T S)) (tenant ns name : String)
    (spec : ReplicationControllerSpec) :
    (∃ e, (UpdateReplicasCountWithMultiTenancy (storeClient rules) s tenant ns name spec).value
        = some e ∧
      (UpdateReplicasCountWithMultiTenancy (storeClient rules) s tenant ns name spec).state = s ∧
      ¬ ∃ rc old, s.replicationControllers tenant ns name = some rc ∧
        rules.validate (setReplicas rc spec) = none ∧
        s.replicationControllers tenant ns (rules.nameOf rc.ObjectMeta) = some old) ∨
    (∃ rc old, s.replicationControllers tenant ns name = some rc ∧
      rules.validate (setReplicas rc spec) = none ∧
      s.replicationControllers tenant ns (rules.nameOf rc.ObjectMeta) = some old ∧
      (UpdateReplicasCountWithMultiTenancy (storeClient rules) s tenant ns name spec).value
        = none ∧
      (UpdateReplicasCountWithMultiTenancy (storeClient rules) s tenant ns name spec).state
        = s.putReplicationController tenant ns (rules.nameOf rc.ObjectMeta)
            (setReplicas rc spec)) := by
  cases hrc : s.replicationControllers tenant ns name with
  | none =>
    have h := UpdateReplicasCountWithMultiTenancy_of_get_error (storeClient rules) s tenant ns
      name spec rules.notFound s (storeClient_get_none rules s tenant ns name hrc)
    exact Or.inl ⟨_, h.1, h.2.2, by simp⟩
  | some rc =>
    have hget := storeClient_get_some rules s tenant ns name rc hrc
    cases hval : rules.validate (setReplicas rc spec) with
    | some e =>
      have h := UpdateReplicasCountWithMultiTenancy_of_update_error (storeClient rules) s tenant
        ns name spec rc s e s hget (storeClient_update_rejected rules s tenant ns _ e hval)
      exact Or.inl ⟨_, h.1, h.2.2, by simp [hval]⟩
    | none =>
      cases hk : s.replicationControllers tenant ns (rules.nameOf rc.ObjectMeta) with
      | none =>
        have h := UpdateReplicasCountWithMultiTenancy_of_update_error (storeClient rules) s
          tenant ns name spec rc s rules.notFound s hget
          (storeClient_update_missing rules s tenant ns _ hval hk)
        exact Or.inl ⟨_, h.1, h.2.2, by simp [hk]⟩
      | some old =>
        have h := UpdateReplicasCountWithMultiTenancy_of_update_ok (storeClient rules) s tenant
          ns name spec rc s _ _ hget (storeClient_update_stored rules s tenant ns _ old hval hk)
        exact Or.inr ⟨rc, old, rfl, hval, hk, h.1, h.2.2⟩

theorem UpdateReplicasCountWithMultiTenancy_store_ok (rules : StoreRules Err M T S)
    (s : ClusterStore PV (v1.ReplicationController M T S)) (tenant ns name : String)
    (spec : ReplicationControllerSpec) (rc old : v1.ReplicationController M T S)
    (hrc : s.replicationControllers tenant ns name = some rc)
    (hval : rules.validate (setReplicas rc spec) = none)
    (hk : s.replicationControllers tenant ns (rules.nameOf rc.ObjectMeta) = some old) :
    (UpdateReplicasCountWithMultiTenancy (storeClient rules) s tenant ns name spec).value
      = none ∧
    (UpdateReplicasCountWithMultiTenancy (storeClient rules) s tenant ns name spec).state
      = s.putReplicationController tenant ns (rules.nameOf rc.ObjectMeta)
          (setReplicas rc spec) := by
  rcases UpdateReplicasCountWithMultiTenancy_store rules s tenant ns name spec with
    ⟨e, _, _, hno⟩ | ⟨rc2, old2, hrc2, _, _, hv, hs⟩
  · exact absurd ⟨rc, old, hrc, hval, hk⟩ hno
  · rw [hrc] at hrc2
    cases hrc2
    exact ⟨hv, hs⟩

/-- Over the cluster store a second update with the same coordinates and spec
changes neither the store nor the returned error. -/
theorem UpdateReplicasCountWithMultiTenancy_store_twice (rules : StoreRules Err M T S)
    (s : ClusterStore PV (v1.ReplicationController M T S)) (tenant ns name : String)
    (spec : ReplicationControllerSpec) :
    (UpdateReplicasCountWithMultiTenancy (storeClient rules)
        (UpdateReplicasCountWithMultiTenancy (storeClient rules) s tenant ns name spec).state
        tenant ns name spec).state
      = (UpdateReplicasCountWithMultiTenancy (storeClient rules) s tenant ns name spec).state ∧
    (UpdateReplicasCountWithMultiTenancy (storeClient rules)
        (UpdateReplicasCountWithMultiTenancy (storeClient rules) s tenant ns name spec).state
        tenant ns name spec).value
      = (UpdateReplicasCountWithMultiTenancy (storeClient rules) s tenant ns name spec).value := by
  rcases UpdateReplicasCountWithMultiTenancy_store rules s tenant ns name spec with
    ⟨e, _, hs, _⟩ | ⟨rc, old, hrc, hval, hk, hv, hs⟩
  · rw [hs]
    exact ⟨hs, rfl⟩
  · rw [hs, hv]
    by_cases hn : name = rules.nameOf rc.ObjectMeta
    · have h := UpdateReplicasCountWithMultiTenancy_store_ok rules
        (s.putReplicationController tenant ns (rules.nameOf rc.ObjectMeta) (setReplicas rc spec))
        tenant ns name spec (setReplicas rc spec) (setReplicas rc spec)
        (by rw [hn]; exact putReplicationController_same s tenant ns _ _)
        (by rw [setReplicas_setReplicas]; exact hval)
        (putReplicationController_same s tenant ns _ _)
      rw [h.1, h.2]
      exact ⟨putReplicationController_put s tenant ns _ _, rfl⟩
    · have h := UpdateReplicasCountWithMultiTenancy_store_ok rules
        (s.putReplicationController tenant ns (rules.nameOf rc.ObjectMeta) (setReplicas rc spec))
        tenant ns name spec rc (setReplicas rc spec)
        (by rw [putReplicationController_other s tenant ns _ name _ hn]; exact hrc)
        hval
        (putReplicationController_same s tenant ns _ _)
      rw [h.1, h.2]
      exact ⟨putReplicationController_put s tenant ns _ _, rfl⟩

/-- Claim C7. Over the cluster store, with the object at the coordinates
stored under the name it carries: for every 32-bit `spec.Replicas`, negative
and zero included, `UpdateReplicasCount` succeeds exactly when the object
exists and the store admits it with the new count (the function itself
rejects no value), and after a success a Get of the same coordinates answers
with the object that was stored before, `Spec.Replicas` equal to
`spec.Replicas` (not clamped) and every other field as before the call. -/
theorem successful_update_is_read_back (rules : StoreRules Err M T S)
    (s : ClusterStore PV (v1.ReplicationController M T S)) (ns name : String)
    (spec : ReplicationControllerSpec)
    (hkey : ∀ rc, s.replicationControllers "" ns name = some rc →
      rules.nameOf rc.ObjectMeta = name) :
    ((UpdateReplicasCount (storeClient rules) s ns name spec).value = none ↔
      ∃ rc, s.replicationControllers "" ns name = some rc ∧
        rules.validate (setReplicas rc spec) = none) ∧
    ((UpdateReplicasCount (storeClient rules) s ns name spec).value = none →
      ∃ rc obj, s.replicationControllers "" ns name = some rc ∧
        (storeClient rules).ReplicationControllersGet
            (UpdateReplicasCount (storeClient rules) s ns name spec).state ns "" name
          = (Except.ok obj, (UpdateReplicasCount (storeClient rules) s ns name spec).state) ∧
        OnlyReplicasSet rc spec obj) := by
  have heq := UpdateReplicasCount_eq_emptyTenant (storeClient rules) s ns name spec
  rw [heq.1, heq.2.2]
  rcases UpdateReplicasCountWithMultiTenancy_store rules s "" ns name spec with
    ⟨e, hv, _, hno⟩ | ⟨rc, old, hrc, hval, hk, hv, hs⟩
  · rw [hv]
    refine ⟨⟨fun h => (by cases h), ?_⟩, fun h => (by cases h)⟩
    rintro ⟨rc, hrc, hval⟩
    exact absurd ⟨rc, rc, hrc, hval, by rw [hkey rc hrc]; exact hrc⟩ hno
  · rw [hv, hs, hkey rc hrc]
    refine ⟨⟨fun _ => ⟨rc, hrc, hval⟩, fun _ => rfl⟩, fun _ => ?_⟩
    exact ⟨rc, setReplicas rc spec, hrc,
      storeClient_get_some rules _ "" ns name _ (putReplicationController_same s "" ns name _),
      onlyReplicasSet_setReplicas rc spec⟩

/-- Witness of claim C7 on the example store: `rc-1` in `default` holds two
replicas, the update to five succeeds, and the next Get reports five replicas
and the other spec fields as before. -/
theorem successful_update_is_read_back_witness :
    (UpdateReplicasCount Example.client Example.store "default" "rc-1" Example.five).value
      = none ∧
    ∃ rc obj, Example.store.replicationControllers "" "default" "rc-1" = some rc ∧
      Example.client.ReplicationControllersGet
          (UpdateReplicasCount Example.client Example.store "default" "rc-1" Example.five).state
          "default" "" "rc-1"
        = (Except.ok obj,
          (UpdateReplicasCount Example.client Example.store "default" "rc-1"
            Example.five).state) ∧
      OnlyReplicasSet rc Example.five obj :=
  have hkey : ∀ rc, Example.store.replicationControllers "" "default" "rc-1" = some rc →
      Example.rules.nameOf rc.ObjectMeta = "rc-1" := fun rc h => by
    have h2 : some (Example.rc1 ⟨2, by decide⟩) = some rc := h
    cases h2
    rfl
  have h := successful_update_is_read_back Example.rules Example.store "default" "rc-1"
    Example.five hkey
  have hv := h.1.2 ⟨Example.rc1 ⟨2, by decide⟩, rfl, rfl⟩
  ⟨hv, h.2 hv⟩

/-- Claim C8. Over the cluster store, with no write in between, a second
`UpdateReplicasCount` (or `UpdateReplicasCountWithMultiTenancy`) with the same
coordinates and the same spec leaves the store exactly as the first call left
it, so every stored object and its replica count are those after one call;
the second call also returns what the first returned. -/
theorem update_twice_leaves_store_of_update_once (rules : StoreRules Err M T S)
    (s : ClusterStore PV (v1.ReplicationController M T S)) (tenant ns name : String)
    (spec : ReplicationControllerSpec) :
    ((UpdateReplicasCount (storeClient rules)
          (UpdateReplicasCount (storeClient rules) s ns name spec).state ns name spec).state
        = (UpdateReplicasCount (storeClient rules) s ns name spec).state ∧
      (UpdateReplicasCount (storeClient rules)
          (UpdateReplicasCount (storeClient rules) s ns name spec).state ns name spec).value
        = (UpdateReplicasCount (storeClient rules) s ns name spec).value) ∧
    ((UpdateReplicasCountWithMultiTenancy (storeClient rules)
          (UpdateReplicasCountWithMultiTenancy (storeClient rules) s tenant ns name spec).state
          tenant ns name spec).state
        = (UpdateReplicasCountWithMultiTenancy (storeClient rules) s tenant ns name spec).state ∧
      (UpdateReplicasCountWithMultiTenancy (storeClient rules)
          (UpdateReplicasCountWithMultiTenancy (storeClient rules) s tenant ns name spec).state
          tenant ns name spec).value
        = (UpdateReplicasCountWithMultiTenancy (storeClient rules) s tenant ns name spec).value) := by
  refine ⟨?_, UpdateReplicasCountWithMultiTenancy_store_twice rules s tenant ns name spec⟩
  have h1 := UpdateReplicasCount_eq_emptyTenant (storeClient rules) s ns name spec
  have h2 := UpdateReplicasCount_eq_emptyTenant (storeClient rules)
    (UpdateReplicasCountWithMultiTenancy (storeClient rules) s "" ns name spec).state ns name spec
  rw [h1.2.2, h1.1, h2.2.2, h2.1]
  exact UpdateReplicasCountWithMultiTenancy_store_twice rules s "" ns name spec

/-- Over the cluster store, with the object at the coordinates stored under the
name it carries, an update touches one entry at most: the persistent volumes
and every replication controller under another tenant, namespace or name are
as before the call, whether the update succeeds or fails. -/
theorem update_leaves_other_entries (rules : StoreRules Err M T S)
    (s : ClusterStore PV (v1.ReplicationController M T S)) (tenant ns name : String)
    (spec : ReplicationControllerSpec)
    (hkey : ∀ rc, s.replicationControllers tenant ns name = some rc →
      rules.nameOf rc.ObjectMeta = name) :
    (UpdateReplicasCountWithMultiTenancy (storeClient rules) s tenant ns name
      spec).state.persistentVolumes = s.persistentVolumes ∧
    ∀ t n k, ¬ (t = tenant ∧ n = ns ∧ k = name) →
      (UpdateReplicasCountWithMultiTenancy (storeClient rules) s tenant ns name
        spec).state.replicationControllers t n k = s.replicationControllers t n k := by
  rcases UpdateReplicasCountWithMultiTenancy_store rules s tenant ns name spec with
    ⟨e, _, hs, _⟩ | ⟨rc, old, hrc, _, _, _, hs⟩
  · rw [hs]
    exact ⟨rfl, fun _ _ _ _ => rfl⟩
  · rw [hs, hkey rc hrc]
    refine ⟨rfl, fun t n k hne => ?_⟩
    simp [ClusterStore.putReplicationController, hne]

/-- Witness of `update_leaves_other_entries` on the example store: the update
of `rc-1` in `default` leaves `pv-1` and the `rc-1` of namespace `slow` as
they were. -/
theorem update_leaves_other_entries_witness :
    (UpdateReplicasCountWithMultiTenancy Example.client Example.store "" "default" "rc-1"
      Example.five).state.persistentVolumes = Example.store.persistentVolumes ∧
    (UpdateReplicasCountWithMultiTenancy Example.client Example.store "" "default" "rc-1"
      Example.five).state.replicationControllers "" "slow" "rc-1"
      = Example.store.replicationControllers "" "slow" "rc-1" :=
  have h := update_leaves_other_entries Example.rules Example.store "" "default" "rc-1"
    Example.five (fun rc hrc => by
      have h2 : some (Example.rc1 ⟨2, by decide⟩) = some rc := hrc
      cases h2
      rfl)
  ⟨h.1, h.2 "" "slow" "rc-1" (by decide)⟩

/-- A negative replica count goes through: on the example store the update of
`rc-1` in `default` to minus three replicas sends minus three to the cluster,
succeeds, and the next Get reports minus three. -/
theorem negative_replicas_are_sent_and_stored :
    (UpdateReplicasCount Example.client Example.store "default" "rc-1"
      Example.minusThree).value = none ∧
    clientCalls (UpdateReplicasCount Example.client Example.store "default" "rc-1"
      Example.minusThree).trace =
      [Call.getReplicationController "default" "" "rc-1",
       Call.updateReplicationController "default" "" (Example.rc1 ⟨-3, by decide⟩)] ∧
    (Example.client.ReplicationControllersGet
      (UpdateReplicasCount Example.client Example.store "default" "rc-1"
        Example.minusThree).state "default" "" "rc-1").1
      = Except.ok (Example.rc1 ⟨-3, by decide⟩) :=
  ⟨rfl, rfl, rfl⟩

/-- The variants with a tenant do not write the log line of the variants
without one: at the empty tenant the first log line of
`GetReplicationControllerDetailWithMultiTenancy` ends in " namespace for ",
that of `GetReplicationControllerDetail` in " namespace", so the full traces
differ although the client requests are the same. -/
theorem tenant_variants_log_lines_differ {σ PodInfo RCItem : Type}
    (deps : Deps σ Err (v1.ReplicationController M T S) PodInfo RCItem)
    (client : Client σ Err PV (v1.ReplicationController M T S)) (s : σ) (ns name : String) :
    (GetReplicationControllerDetailWithMultiTenancy deps client s "" ns name).trace
      ≠ (GetReplicationControllerDetail deps client s ns name).trace := by
  have hlen : ∀ a : String, a ++ " namespace for " ++ "" ≠ a ++ " namespace" := by
    intro a h
    have h2 := congrArg String.length h
    simp only [String.length_append] at h2
    have h3 : (" namespace for " : String).length = 15 := by decide
    have h4 : (" namespace" : String).length = 10 := by decide
    have h5 : ("" : String).length = 0 := by decide
    omega
  unfold GetReplicationControllerDetailWithMultiTenancy GetReplicationControllerDetail
  intro h
  cases hg : client.ReplicationControllersGet s ns "" name with
  | mk g s1 =>
    rw [hg] at h
    cases g with
    | error e =>
      simp only [List.cons.injEq, Event.log.injEq] at h
      exact hlen _ h.1
    | ok rc =>
      simp only [] at h
      cases hc : deps.HandleError
          (getReplicationControllerPodInfoWithMultiTenancy deps s1 rc "" ns).value.2 with
      | mk ncs c =>
        simp only [getReplicationControllerPodInfo, hc] at h
        cases c with
        | none =>
          simp only [List.cons_append, List.cons.injEq, Event.log.injEq] at h
          exact hlen _ h.1
        | some c =>
          simp only [List.cons_append, List.cons.injEq, Event.log.injEq] at h
          exact hlen _ h.1

end StoreUpdates

end Dashboard
